import Mathlib

/-!
Shallow embedding of the zero-trust IoT gateway core
(src/gateway/app.py, src/anomaly/anomaly_detector.py, src/config/config.py).

Conventions of the embedding:
* Python floats are modelled as exact rationals; detector arithmetic that
  involves a square root is modelled over the reals.
* SQLite tables are lists of records kept most-recent-first, so a SELECT
  with ORDER BY time DESC LIMIT 1 is a find-first and LIMIT n is a take.
* A raised Python exception that aborts a request is modelled as an
  Except error (surfacing as a 500 response in the pipeline model).
* JSON bodies are modelled as association lists of string keys; JSON
  scalars are the Value type below.  Parsing of numeric strings by
  float() and int(), and the NaN produced by numpy for a NULL column,
  are not modelled: both are mapped to a conversion failure, which no
  claim exercises.
-/

-- String constants used by the gateway and detector.
def kDeviceId : String := "device_id"
def kValue : String := "value"
def kUnit : String := "unit"
def kIsAnomalyKey : String := "is_anomaly"
def kDeviceType : String := "device_type"
def kUnknown : String := "unknown"
def kFull : String := "full"
def kReadOnly : String := "read_only"
def kQuarantine : String := "quarantine"
def kQuarantined : String := "quarantined"
def kAllowed : String := "allowed"
def kDenied : String := "denied"
def kRateLimit : String := "rate_limit"
def kAnomalyTy : String := "anomaly"
def kHigh : String := "high"
def kMedium : String := "medium"
def kLow : String := "low"
def kBearer : String := "Bearer "
def kSpace : String := " "
def kEmpty : String := ""
def kAlreadyBlocked : String := "already_blocked"
def kRateLimitExceeded : String := "rate_limit_exceeded"
def kMissingToken : String := "missing_token"
def kInvalidToken : String := "invalid_token"
def kTokenMismatch : String := "token_mismatch"
def kServerError : String := "server_error"
def kBothLayers : String := "both_layers"
def kZscoreM : String := "zscore"
def kIsolationForestM : String := "isolation_forest"
def kNoneM : String := "none"

/-- A JSON scalar as it appears in a request body or a database column. -/
inductive Value where
  | num (q : ℚ)
  | str (s : String)
  | bool (b : Bool)
  | null
deriving DecidableEq

/-- Python truthiness of a JSON scalar. -/
def truthyV : Value → Bool
  | .num q => q != 0
  | .str s => s != kEmpty
  | .bool b => b
  | .null => false

/-- Conversion of a scalar to a Python float, as used by numpy
(np.array(..., dtype=float)).  float() on strings and the NaN numpy
produces for None are not modelled; both become a failure. -/
def toFloat? : Value → Option ℚ
  | .num q => some q
  | .bool b => some (if b then 1 else 0)
  | .str _ => none
  | .null => none

/-- Python int() on a scalar (used for int(is_anomaly) at the insert of a
reading).  Truncates toward zero; int() of strings is not modelled. -/
def toIntPy : Value → Option ℤ
  | .num q => some (q.num / (q.den : ℤ))
  | .bool b => some (if b then 1 else 0)
  | .str _ => none
  | .null => none

/-- Python max of two floats (largest wins, the second on a tie-free
strict comparison), as a computable rational operation. -/
def pymax (a b : ℚ) : ℚ := if a < b then b else a

/-- Python min of two floats. -/
def pymin (a b : ℚ) : ℚ := if b < a then b else a

/-- Python abs of a float. -/
def pyabs (q : ℚ) : ℚ := if q < 0 then -q else q

/-- Float conversion of a possibly-NULL column or dict value. -/
def pyFloat (v : Option Value) : Option ℚ :=
  match v with
  | some x => toFloat? x
  | none => none

/-- Character-list core of Python str.startswith. -/
def startsChars : List Char → List Char → Bool
  | [], _ => true
  | _ :: _, [] => false
  | c :: cs, d :: ds => if c = d then startsChars cs ds else false

/-- Python str.startswith(p), evaluated on the character lists. -/
def pyStartsWith (s p : String) : Bool := startsChars p.data s.data

/-- Character-list core of Python str.split(" "). -/
def splitSpaceChars : List Char → List Char → List (List Char)
  | [], acc => [acc.reverse]
  | c :: cs, acc =>
    if c = ' ' then acc.reverse :: splitSpaceChars cs []
    else splitSpaceChars cs (c :: acc)

/-- Python str.split(" "): split on every single space character. -/
def pySplitSpace (s : String) : List String :=
  (splitSpaceChars s.data []).map (fun cs => String.mk cs)

/-- A parsed JSON object body (duplicate keys cannot arise from parsing). -/
abbrev JsonObj := List (String × Value)

/-- dict.get(k) returning None when the key is absent. -/
def jget (j : JsonObj) (k : String) : Option Value :=
  (j.find? (fun p => p.1 == k)).map (fun p => p.2)

/-- SQL equality against a possibly-NULL column value: NULL never
compares equal, mirroring WHERE device_id = ? bound to None. -/
def sqlEq (a b : Option Value) : Bool :=
  match a, b with
  | some x, some y => x == y
  | _, _ => false

/-- One row of the device_data table (free-text columns and timestamps
that no claim mentions are not modelled). -/
structure Reading where
  device_id : Option Value
  value : Option Value
  unit : Value
  is_anomaly : ℤ
deriving DecidableEq

/-- One row of the trust_scores table. -/
structure TrustRec where
  device_id : Option Value
  score : ℚ
  access_level : String
deriving DecidableEq

/-- One row of the alerts table (the free-text message column is not
modelled). -/
structure AlertRec where
  device_id : Option Value
  alert_type : String
  severity : String
deriving DecidableEq

/-- One row of the access_logs table (the free-text reason column is not
modelled). -/
structure LogRec where
  device_id : Option Value
  action : String
  trust_score : ℚ
deriving DecidableEq

/-- The SQLite database; every table is kept most-recent-first so that
an insert is a prepend and ORDER BY time DESC is the list order. -/
structure DB where
  device_data : List Reading
  trust_scores : List TrustRec
  alerts : List AlertRec
  access_logs : List LogRec
deriving DecidableEq

-- Configuration constants from src/config/config.py and the gateway.
def TRUST_FULL_ACCESS : ℚ := 70
def TRUST_READ_ONLY : ℚ := 40
def RATE_LIMIT_WINDOW : ℚ := 10
def RATE_LIMIT_MAX : ℕ := 5
def MIN_SAMPLES_FOR_ML : ℕ := 50
def ISOLATION_CONTAMINATION : ℚ := 1/10

/-- get_trust_score from src/gateway/app.py: latest stored score for the
device, defaulting to 100.0 when no record exists. -/
def get_trust_score (db : DB) (device_id : Option Value) : ℚ :=
  match db.trust_scores.find? (fun r => sqlEq r.device_id device_id) with
  | some r => r.score
  | none => 100

/-- The access-level branch inside compute_and_store_trust
(src/gateway/app.py lines 68-73). -/
def accessLevelOf (score : ℚ) : String :=
  if TRUST_FULL_ACCESS ≤ score then kFull
  else if TRUST_READ_ONLY ≤ score then kReadOnly
  else kQuarantine

/-- compute_and_store_trust from src/gateway/app.py: read the current
score, apply the minus-15 / plus-2 update, clamp to the 0..100 range,
derive the access level and insert the new trust record.  The value and
device_type arguments are received but unused, exactly as in the source. -/
def compute_and_store_trust (db : DB) (device_id : Option Value)
    (is_anomaly : Bool) (_value : Option Value) (_device_type : Value) :
    ℚ × String × DB :=
  let current_score := get_trust_score db device_id
  let new_score0 := if is_anomaly then current_score - 15 else current_score + 2
  let new_score := pymax 0 (pymin 100 new_score0)
  let access_level := accessLevelOf new_score
  (new_score, access_level,
    { db with trust_scores := ⟨device_id, new_score, access_level⟩ :: db.trust_scores })

/-- log_access from src/gateway/app.py. -/
def log_access (db : DB) (device_id : Option Value) (action : String)
    (trust_score : ℚ) : DB :=
  { db with access_logs := ⟨device_id, action, trust_score⟩ :: db.access_logs }

/-- create_alert from src/gateway/app.py. -/
def create_alert (db : DB) (device_id : Option Value) (alert_type : String)
    (severity : String) : DB :=
  { db with alerts := ⟨device_id, alert_type, severity⟩ :: db.alerts }

-- ── Anomaly detector (src/anomaly/anomaly_detector.py) ──────────────────

/-- The diagnostic reason of the z-score layer.  The source formats it as
a string; the embedding keeps the structured content. -/
inductive Reason where
  | insufficient_history
  | zero_variance
  | zscore_info (z mean std : ℝ)

/-- np.mean of a list of floats. -/
noncomputable def listMean (l : List ℝ) : ℝ := l.sum / l.length

/-- The population variance underlying np.std (ddof = 0). -/
noncomputable def listVar (l : List ℝ) : ℝ :=
  ((l.map (fun x => (x - listMean l) ^ 2)).sum) / l.length

/-- np.std of a list of floats. -/
noncomputable def listStd (l : List ℝ) : ℝ := Real.sqrt (listVar l)

/-- np.array(rows, dtype=float) over fetched column values: every entry
must convert to a float, otherwise the call raises. -/
def floatArr : List (Option Value) → Except Unit (List ℚ)
  | [] => .ok []
  | v :: r =>
    match pyFloat v with
    | none => .error ()
    | some q => (floatArr r).map (fun qs => q :: qs)

/-- The (is_anomaly, confidence, reason) result of zscore_check. -/
structure ZRes where
  is_anomaly : Bool
  confidence : ℝ
  reason : Reason

/-- Python inequality new_value != mean between the raw reading value and
a float: values of non-numeric type are always unequal. -/
noncomputable def vNeq (v : Option Value) (m : ℝ) : Bool :=
  match pyFloat v with
  | some q => @decide (¬ ((q : ℝ) = m)) (Classical.propDecidable _)
  | none => true

def ZSCORE_THRESHOLD : ℝ := 2.5

/-- zscore_check from src/anomaly/anomaly_detector.py: the statistical
layer, fed with the device's stored values most-recent-first (the
LIMIT 100 of the query is the take below). -/
noncomputable def zscore_check (hist : List (Option Value)) (v : Option Value) :
    Except Unit ZRes :=
  let rows := hist.take 100
  if rows.length < 10 then .ok ⟨false, 0, .insufficient_history⟩
  else
    match floatArr rows with
    | .error e => .error e
    | .ok qs =>
      let values := qs.map (fun (q : ℚ) => (q : ℝ))
      let mean := listMean values
      let std := listStd values
      if @decide (std = 0) (Classical.propDecidable _) then
        let a := vNeq v mean
        .ok ⟨a, if a then 1 else 0, .zero_variance⟩
      else
        match pyFloat v with
        | none => .error ()
        | some q =>
          let z := |(q : ℝ) - mean| / std
          .ok ⟨@decide (ZSCORE_THRESHOLD < z) (Classical.propDecidable _),
               min 1 (z / (ZSCORE_THRESHOLD * 2)), .zscore_info z mean std⟩

/-- The sklearn IsolationForest surface consumed by the detector,
abstracted as a collaborator: fit receives the training values,
the contamination, the random_state and n_estimators; predict returns
the minus-1 / 1 classification and score_samples the raw score. -/
structure MLBackend (M : Type) where
  fit : List ℚ → ℚ → ℕ → ℕ → M
  predict : M → ℚ → ℤ
  score_samples : M → ℚ → ℚ

/-- Observable interactions of isolation_forest_check with the model
store: a fit with its exact arguments, or a consultation of a model. -/
inductive MLEv where
  | fitted (values : List ℚ) (contamination : ℚ) (random_state : ℕ)
      (n_estimators : ℕ)
  | consulted
deriving DecidableEq

/-- The confidence conversion max(0.0, min(1.0, abs(score) / 0.5)). -/
def ifConf (score : ℚ) : ℚ := pymax 0 (pymin 1 (pyabs score / (1/2)))

/-- The prediction/scoring tail of isolation_forest_check. -/
def ifRun (B : MLBackend M) (model : M) (q : ℚ) : Bool × ℚ :=
  (B.predict model q == -1, ifConf (B.score_samples model q))

/-- isolation_forest_check from src/anomaly/anomaly_detector.py, with the
per-device entry of the _models cache passed in and returned (the caller
owns the dict lookup).  A conversion failure is an error that discards
the partial cache mutation of that call. -/
def isolation_forest_check (B : MLBackend M) (cached : Option M)
    (hist : List (Option Value)) (v : Option Value) :
    Except Unit ((Bool × ℚ) × Option M × List MLEv) :=
  let rows := hist.take 200
  if rows.length < MIN_SAMPLES_FOR_ML then .ok ((false, 0), cached, [])
  else
    match floatArr rows with
    | .error e => .error e
    | .ok values =>
      match pyFloat v with
      | none => .error ()
      | some q =>
        match cached, decide (rows.length % 50 = 0) with
        | some model, false =>
          .ok (ifRun B model q, some model, [.consulted])
        | some _, true =>
          let model := B.fit values ISOLATION_CONTAMINATION 42 100
          .ok (ifRun B model q, some model,
               [.fitted values ISOLATION_CONTAMINATION 42 100, .consulted])
        | none, _ =>
          let model := B.fit values ISOLATION_CONTAMINATION 42 100
          .ok (ifRun B model q, some model,
               [.fitted values ISOLATION_CONTAMINATION 42 100, .consulted])

/-- The combined result dict of detect_anomaly. -/
structure Verdict where
  is_anomaly : Bool
  confidence : ℝ
  method : String
  reason : Reason
  trust_penalty : ℝ

/-- Round-half-to-even of a real to an integer, the rounding rule of
Python round() idealised over exact reals. -/
noncomputable def roundHalfEvenZ (y : ℝ) : ℤ :=
  if @decide ((y - (⌊y⌋ : ℝ)) < 1/2) (Classical.propDecidable _) then ⌊y⌋
  else if @decide ((1/2 : ℝ) < y - (⌊y⌋ : ℝ)) (Classical.propDecidable _) then ⌊y⌋ + 1
  else if ⌊y⌋ % 2 = 0 then ⌊y⌋ else ⌊y⌋ + 1

/-- Python round(x, d) idealised over exact reals. -/
noncomputable def pyRound (x : ℝ) (d : ℕ) : ℝ :=
  (roundHalfEvenZ (x * 10 ^ d) : ℝ) / 10 ^ d

/-- The combination step of detect_anomaly
(src/anomaly/anomaly_detector.py lines 131-155). -/
noncomputable def combineVerdict (z_anomaly : Bool) (z_confidence : ℝ)
    (if_anomaly : Bool) (if_confidence : ℝ) (z_reason : Reason) : Verdict :=
  let combined_confidence := z_confidence * 0.4 + if_confidence * 0.6
  let is_anomaly := z_anomaly || if_anomaly
  let method :=
    if z_anomaly && if_anomaly then kBothLayers
    else if z_anomaly then kZscoreM
    else if if_anomaly then kIsolationForestM
    else kNoneM
  { is_anomaly := is_anomaly
    confidence := pyRound combined_confidence 3
    method := method
    reason := z_reason
    trust_penalty := if is_anomaly then pyRound (combined_confidence * 20) 1 else 0 }

/-- Lookup of the _models cache entry for a device. -/
def lookupModel (models : List (Option Value × M)) (did : Option Value) :
    Option M :=
  (models.find? (fun p => p.1 == did)).map (fun p => p.2)

/-- Store-back of the possibly retrained model into the _models cache. -/
def updateModel (models : List (Option Value × M)) (did : Option Value) :
    Option M → List (Option Value × M)
  | none => models
  | some m => (did, m) :: models.filter (fun p => p.1 != did)

/-- detect_anomaly from src/anomaly/anomaly_detector.py: run both layers
against the device's stored history (most-recent-first) and combine. -/
noncomputable def detect_anomaly (B : MLBackend M)
    (models : List (Option Value × M)) (dd : List Reading)
    (did : Option Value) (v : Option Value) :
    Except Unit (Verdict × List (Option Value × M)) :=
  let hist := (dd.filter (fun r => sqlEq r.device_id did)).map (fun r => r.value)
  match zscore_check hist v with
  | .error e => .error e
  | .ok zr =>
    match isolation_forest_check B (lookupModel models did) hist v with
    | .error e => .error e
    | .ok ((if_anomaly, if_confidence), cache2, _evs) =>
      .ok (combineVerdict zr.is_anomaly zr.confidence if_anomaly
             ((if_confidence : ℚ) : ℝ) zr.reason,
           updateModel models did cache2)

-- ── Gateway ingest pipeline (src/gateway/app.py, /data/ingest) ──────────

/-- An incoming HTTP request as the ingest handler observes it: the body
as parsed by request.get_json(silent=True) (none for an absent or
unparseable body) and the Authorization header (empty string default). -/
structure Request where
  body : Option JsonObj
  authHeader : String
deriving DecidableEq

/-- The in-process gateway state: the request_tracker and
blocked_devices globals of app.py, the database, and the _models cache
of the detector module. -/
structure GWState (M : Type) where
  request_tracker : Value → List ℚ
  blocked_devices : List Value
  db : DB
  models : List (Option Value × M)

/-- An HTTP response, abstracted to its status code and a stable reason
tag for the JSON payload. -/
structure Resp where
  code : ℕ
  tag : String
deriving DecidableEq

/-- The externally visible side effects of one ingest call, in program
order: successful credential verification, the insert of the raw
reading, the insert of a trust record, an alert, an access-log line. -/
inductive Ev where
  | authOk
  | persistReading (device_id : Option Value) (value : Option Value)
  | trustStore (device_id : Option Value) (score : ℚ)
  | alertEv (device_id : Option Value) (alert_type : String) (severity : String)
  | logEv (device_id : Option Value) (action : String)
deriving DecidableEq

/-- The rate-limiting prologue of ingest (src/gateway/app.py lines
136-159): inl is an early 429 return, inr passes the (possibly updated)
state on to JWT validation. -/
def rate_stage (s : GWState M) (incoming : Option JsonObj) (now : ℚ) :
    (Resp × GWState M × List Ev) ⊕ GWState M :=
  match incoming with
  | none => .inr s
  | some j =>
    if j.isEmpty then .inr s
    else
      let did := (jget j kDeviceId).getD (Value.str kUnknown)
      if did ∈ s.blocked_devices then .inl (⟨429, kAlreadyBlocked⟩, s, [])
      else
        let pruned := (s.request_tracker did).filter
          (fun t => now - t < RATE_LIMIT_WINDOW)
        let upd := pruned ++ [now]
        let s2 : GWState M :=
          { s with request_tracker := fun x => if x == did then upd
                     else s.request_tracker x }
        let current_score := get_trust_score s.db (some did)
        if current_score < 40 ∧ RATE_LIMIT_MAX < upd.length then
          .inl (⟨429, kRateLimitExceeded⟩,
                { s2 with blocked_devices := did :: s2.blocked_devices,
                          db := create_alert s2.db (some did) kRateLimit kHigh },
                [.alertEv (some did) kRateLimit kHigh])
        else .inr s2

/-- Everything of ingest after the rate limiter: JWT validation, parse,
identity match, persistence, detection, trust update and the policy
branch (src/gateway/app.py lines 161-245).  verify stands for the jwt
collaborator and yields the token payload. -/
noncomputable def auth_and_process (B : MLBackend M)
    (verify : String → Option JsonObj) (s : GWState M) (req : Request) :
    Resp × GWState M × List Ev :=
  if !(pyStartsWith req.authHeader kBearer) then (⟨401, kMissingToken⟩, s, [])
  else
    let token := (pySplitSpace req.authHeader).getD 1 kEmpty
    match verify token with
    | none => (⟨401, kInvalidToken⟩, s, [])
    | some payload =>
      match req.body with
      | none => (⟨500, kServerError⟩, s, [.authOk])
      | some data =>
        let token_device_id := jget payload kDeviceId
        let device_id := jget data kDeviceId
        let value := jget data kValue
        let unit := (jget data kUnit).getD (Value.str kEmpty)
        let is_anomaly_raw := (jget data kIsAnomalyKey).getD (Value.bool false)
        let device_type := (jget data kDeviceType).getD (Value.str kUnknown)
        if token_device_id != device_id then
          (⟨403, kTokenMismatch⟩,
           { s with db := log_access s.db device_id kDenied 0 },
           [.authOk, .logEv device_id kDenied])
        else
          match toIntPy is_anomaly_raw with
          | none => (⟨500, kServerError⟩, s, [.authOk])
          | some iaInt =>
            let s1 : GWState M :=
              { s with db := { s.db with
                  device_data := ⟨device_id, value, unit, iaInt⟩ ::
                    s.db.device_data } }
            let evs1 := [Ev.authOk, Ev.persistReading device_id value]
            match detect_anomaly B s1.models s1.db.device_data device_id value with
            | .error _ => (⟨500, kServerError⟩, s1, evs1)
            | .ok (verdict, models2) =>
              let s2 : GWState M := { s1 with models := models2 }
              let final_anomaly := truthyV is_anomaly_raw || verdict.is_anomaly
              let r := compute_and_store_trust s2.db device_id final_anomaly
                value device_type
              let trust_score := r.1
              let access_level := r.2.1
              let s3 : GWState M := { s2 with db := r.2.2 }
              let evs2 := evs1 ++ [Ev.trustStore device_id trust_score]
              if access_level == kQuarantine then
                let dbQ := log_access
                  (create_alert s3.db device_id kQuarantine kHigh)
                  device_id kQuarantined trust_score
                (⟨200, kQuarantined⟩, { s3 with db := dbQ },
                 evs2 ++ [.alertEv device_id kQuarantine kHigh,
                          .logEv device_id kQuarantined])
              else if access_level == kReadOnly then
                let dbR := log_access
                  (if final_anomaly then
                     create_alert s3.db device_id kAnomalyTy kMedium
                   else s3.db)
                  device_id kAllowed trust_score
                (⟨200, kReadOnly⟩, { s3 with db := dbR },
                 (evs2 ++ (if final_anomaly then
                    [Ev.alertEv device_id kAnomalyTy kMedium] else [])) ++
                   [.logEv device_id kAllowed])
              else
                let dbF := log_access
                  (if final_anomaly then
                     create_alert s3.db device_id kAnomalyTy kLow
                   else s3.db)
                  device_id kAllowed trust_score
                (⟨200, kAllowed⟩, { s3 with db := dbF },
                 (evs2 ++ (if final_anomaly then
                    [Ev.alertEv device_id kAnomalyTy kLow] else [])) ++
                   [.logEv device_id kAllowed])

/-- The full /data/ingest handler: rate limiter, then the rest. -/
noncomputable def ingest (B : MLBackend M) (verify : String → Option JsonObj)
    (s : GWState M) (req : Request) (now : ℚ) : Resp × GWState M × List Ev :=
  match rate_stage s req.body now with
  | .inl out => out
  | .inr s2 => auth_and_process B verify s2 req

-- ── Property formalisation helpers and concrete test fixtures ───────────

def evIsAuthOk : Ev → Bool
  | .authOk => true
  | _ => false

def evIsPersist : Ev → Bool
  | .persistReading _ _ => true
  | _ => false

/-- The events the ordering property constrains: trust mutations and
alert emissions. -/
def evGuarded : Ev → Bool
  | .trustStore _ _ => true
  | .alertEv _ _ _ => true
  | _ => false

def evIsRateAlert : Ev → Bool
  | .alertEv _ ty _ => ty == kRateLimit
  | _ => false

/-- Checks an event trace: every trust mutation, and every alert other
than the rate-limiter flooding alert, must be preceded by a successful
credential verification and a persisted reading. -/
def guardedAfterAuthPersist (a p : Bool) : List Ev → Bool
  | [] => true
  | e :: r =>
    (!evGuarded e || evIsRateAlert e || (a && p)) &&
    guardedAfterAuthPersist (a || evIsAuthOk e) (p || evIsPersist e) r

-- Concrete fixtures for witnesses and counterexamples.
def kTok : String := "tok"
def kD1 : String := "d1"
def kBearerTok : String := "Bearer tok"

/-- A deterministic stand-in for the sklearn backend: fitting always
yields model 1, prediction always classifies normal with raw score 0. -/
def B0 : MLBackend ℕ :=
  { fit := fun _ _ _ _ => 1, predict := fun _ _ => 1, score_samples := fun _ _ => 0 }

/-- A stand-in for the jwt collaborator accepting exactly one token. -/
def verify0 : String → Option JsonObj :=
  fun t => if t == kTok then some [(kDeviceId, Value.str kD1)] else none

def emptyDB : DB := ⟨[], [], [], []⟩

def s0 : GWState ℕ := ⟨fun _ => [], [], emptyDB, []⟩

/-- A request from device d1 with a valid token and no value field. -/
def req0 : Request := ⟨some [(kDeviceId, Value.str kD1)], kBearerTok⟩

def sBlocked : GWState ℕ := ⟨fun _ => [], [Value.str kD1], emptyDB, []⟩

def dbRL : DB := ⟨[], [⟨some (Value.str kD1), 35, kQuarantine⟩], [], []⟩

/-- Device d1 at trust 35 with five in-window requests already tracked. -/
def sRL : GWState ℕ := ⟨fun _ => [0, 0, 0, 0, 0], [], dbRL, []⟩

/-- A request from d1 bearing no credentials at all. -/
def reqC4 : Request := ⟨some [(kDeviceId, Value.str kD1)], kEmpty⟩

def reqNoBody : Request := ⟨none, kEmpty⟩

/-- The state after the rate limiter admits the first request of req0. -/
def s0p : GWState ℕ :=
  { s0 with request_tracker := fun x =>
      if x == Value.str kD1 then [0] else s0.request_tracker x }

def hist3 : List (Option Value) :=
  [some (Value.num 1), some (Value.num 2), some (Value.num 3)]

def hist10 : List (Option Value) := List.replicate 10 (some (Value.num 5))

def hist60 : List (Option Value) := List.replicate 60 (some (Value.num 2))

def hist201 : List (Option Value) := List.replicate 201 (some (Value.num 0))

-- ── Theorems ────────────────────────────────────────────────────────────

theorem pymax_eq_max (a b : ℚ) : pymax a b = max a b := by
  unfold pymax
  split_ifs with h
  · exact (max_eq_right h.le).symm
  · exact (max_eq_left (not_lt.mp h)).symm

theorem pymin_eq_min (a b : ℚ) : pymin a b = min a b := by
  unfold pymin
  split_ifs with h
  · exact (min_eq_right h.le).symm
  · exact (min_eq_left (not_lt.mp h)).symm

theorem pyabs_eq_abs (q : ℚ) : pyabs q = |q| := by
  unfold pyabs
  split_ifs with h
  · exact (abs_of_neg h).symm
  · exact (abs_of_nonneg (not_lt.mp h)).symm

theorem clamp01_nonneg (x : ℚ) : 0 ≤ max 0 (min 100 x) := le_max_left 0 _

theorem clamp01_le (x : ℚ) : max 0 (min 100 x) ≤ 100 :=
  max_le (by norm_num) (min_le_left _ _)

/-- Claim C1: on every ingested reading, the newly stored trust score is
the previous score (100 when no trust record exists) plus 2 on a clean
reading or minus 15 on an anomalous one, clamped to the 0..100 range, and
the clamped value always lies in that range; the inserted record carries
exactly that score. -/
theorem trust_update_clamped (db : DB) (device_id : Option Value) (a : Bool)
    (v : Option Value) (dt : Value) :
    (compute_and_store_trust db device_id a v dt).1 =
      max 0 (min 100 (get_trust_score db device_id + (if a then -15 else 2))) ∧
    0 ≤ (compute_and_store_trust db device_id a v dt).1 ∧
    (compute_and_store_trust db device_id a v dt).1 ≤ 100 ∧
    (db.trust_scores.find? (fun r => sqlEq r.device_id device_id) = none →
      get_trust_score db device_id = 100) ∧
    ((compute_and_store_trust db device_id a v dt).2.2).trust_scores.head? =
      some ⟨device_id, (compute_and_store_trust db device_id a v dt).1,
            (compute_and_store_trust db device_id a v dt).2.1⟩ := by
  have h1 : (compute_and_store_trust db device_id a v dt).1 =
      max 0 (min 100 (get_trust_score db device_id + (if a then -15 else 2))) := by
    unfold compute_and_store_trust
    cases a
    · dsimp only
      rw [pymax_eq_max, pymin_eq_min]
      simp
    · dsimp only
      rw [pymax_eq_max, pymin_eq_min, sub_eq_add_neg]
      simp
  refine ⟨h1, ?_, ?_, ?_, rfl⟩
  · rw [h1]
    exact clamp01_nonneg _
  · rw [h1]
    exact clamp01_le _
  · intro h
    unfold get_trust_score
    rw [h]

theorem trust_update_clamped_witness :
    (compute_and_store_trust emptyDB (some (Value.str kD1)) false none
        (Value.str kUnknown)).1 =
      max 0 (min 100 (get_trust_score emptyDB (some (Value.str kD1)) +
        (if false then -15 else 2))) ∧
    get_trust_score emptyDB (some (Value.str kD1)) = 100 := by
  have h := trust_update_clamped emptyDB (some (Value.str kD1)) false none
    (Value.str kUnknown)
  exact ⟨h.1, h.2.2.2.1 rfl⟩

/-- Claim C2: the access tier stored with every trust score is a pure
function of the score, boundary-exact: at least 70 gives full, at least
40 but below 70 gives read_only, below 40 gives quarantine; in
particular 70 gives full and 39.9 gives quarantine, and
compute_and_store_trust stores exactly this function of the new score. -/
theorem access_tier_boundaries :
    (∀ s : ℚ, (accessLevelOf s = kFull ↔ 70 ≤ s) ∧
      (accessLevelOf s = kReadOnly ↔ 40 ≤ s ∧ s < 70) ∧
      (accessLevelOf s = kQuarantine ↔ s < 40)) ∧
    accessLevelOf 70 = kFull ∧
    accessLevelOf (399/10) = kQuarantine ∧
    (∀ db d a v dt, (compute_and_store_trust db d a v dt).2.1 =
       accessLevelOf (compute_and_store_trust db d a v dt).1) := by
  refine ⟨fun s => ?_, ?_, ?_, fun db d a v dt => rfl⟩
  · unfold accessLevelOf TRUST_FULL_ACCESS TRUST_READ_ONLY
    split_ifs with h1 h2
    · exact ⟨⟨fun _ => h1, fun _ => rfl⟩,
        ⟨fun h => absurd h (by decide), fun h => False.elim (by linarith [h.2])⟩,
        ⟨fun h => absurd h (by decide), fun h => False.elim (by linarith)⟩⟩
    · exact ⟨⟨fun h => absurd h (by decide), fun h => absurd h h1⟩,
        ⟨fun _ => ⟨h2, not_le.mp h1⟩, fun _ => rfl⟩,
        ⟨fun h => absurd h (by decide), fun h => False.elim (by linarith)⟩⟩
    · exact ⟨⟨fun h => absurd h (by decide), fun h => absurd h h1⟩,
        ⟨fun h => absurd h (by decide), fun h => absurd h.1 h2⟩,
        ⟨fun _ => not_le.mp h2, fun _ => rfl⟩⟩
  · unfold accessLevelOf
    rw [if_pos (by norm_num [TRUST_FULL_ACCESS])]
  · unfold accessLevelOf
    rw [if_neg (by norm_num [TRUST_FULL_ACCESS]),
        if_neg (by norm_num [TRUST_READ_ONLY])]

/-- Claim C5: the combiner weighs the statistical confidence by 0.4 and
the adaptive confidence by 0.6; the weighted sum lies in the unit
interval whenever both inputs do, and the trust penalty is that sum
times 20, rounded to one decimal, exactly when either layer flagged an
anomaly, and 0 otherwise. -/
theorem combiner_confidence_and_penalty (za : Bool) (zc : ℝ) (ia : Bool)
    (ic : ℝ) (r : Reason) :
    ((combineVerdict za zc ia ic r).trust_penalty =
       if za || ia then pyRound ((0.4 * zc + 0.6 * ic) * 20) 1 else 0) ∧
    ((combineVerdict za zc ia ic r).is_anomaly = (za || ia)) ∧
    (0 ≤ zc → zc ≤ 1 → 0 ≤ ic → ic ≤ 1 →
      0 ≤ 0.4 * zc + 0.6 * ic ∧ 0.4 * zc + 0.6 * ic ≤ 1) := by
  refine ⟨?_, rfl, fun h1 h2 h3 h4 => ⟨by nlinarith, by nlinarith⟩⟩
  unfold combineVerdict
  dsimp only
  rw [show zc * 0.4 + ic * 0.6 = 0.4 * zc + 0.6 * ic from by ring]

theorem combiner_confidence_and_penalty_witness :
    ((combineVerdict true (1/2) false (1/2) Reason.insufficient_history).trust_penalty =
       if true || false then pyRound ((0.4 * (1/2 : ℝ) + 0.6 * (1/2)) * 20) 1 else 0) ∧
    (0 ≤ 0.4 * (1/2 : ℝ) + 0.6 * (1/2) ∧ 0.4 * (1/2 : ℝ) + 0.6 * (1/2) ≤ 1) := by
  have h := combiner_confidence_and_penalty true (1/2) false (1/2)
    Reason.insufficient_history
  exact ⟨h.1, h.2.2 (by norm_num) (by norm_num) (by norm_num) (by norm_num)⟩

/-- Claim C6: the statistical detector returns (false, 0,
insufficient_history) on fewer than ten stored readings; with zero
standard deviation it flags an anomaly exactly when the value differs
from the mean, with confidence 1 on anomaly and 0 otherwise; otherwise
it flags an anomaly exactly when the z-score exceeds 2.5, with
confidence min(1, z / 5). -/
theorem zscore_check_cases (hist : List (Option Value)) (v : Option Value) :
    (hist.length < 10 →
      zscore_check hist v = .ok ⟨false, 0, .insufficient_history⟩) ∧
    (∀ qs : List ℚ, 10 ≤ hist.length →
      floatArr (hist.take 100) = .ok qs →
      (listStd (qs.map (fun (q : ℚ) => (q : ℝ))) = 0 →
        ∃ zr, zscore_check hist v = .ok zr ∧
          zr.reason = .zero_variance ∧
          zr.confidence = (if zr.is_anomaly then 1 else 0) ∧
          (∀ q0 : ℚ, pyFloat v = some q0 →
            (zr.is_anomaly = true ↔
              (q0 : ℝ) ≠ listMean (qs.map (fun (q : ℚ) => (q : ℝ)))))) ∧
      (listStd (qs.map (fun (q : ℚ) => (q : ℝ))) ≠ 0 →
        ∀ q0 : ℚ, pyFloat v = some q0 →
          ∃ zr, zscore_check hist v = .ok zr ∧
            (zr.is_anomaly = true ↔
              2.5 < |(q0 : ℝ) - listMean (qs.map (fun (q : ℚ) => (q : ℝ)))| /
                listStd (qs.map (fun (q : ℚ) => (q : ℝ)))) ∧
            zr.confidence =
              min 1 (|(q0 : ℝ) - listMean (qs.map (fun (q : ℚ) => (q : ℝ)))| /
                listStd (qs.map (fun (q : ℚ) => (q : ℝ))) / 5))) := by
  refine ⟨?_, fun qs h10 hfa => ?_⟩
  · intro h
    have hlt : (hist.take 100).length < 10 := by
      rw [List.length_take]
      omega
    unfold zscore_check
    rw [if_pos hlt]
  · have hge : ¬ (hist.take 100).length < 10 := by
      rw [List.length_take]
      omega
    constructor
    · intro hstd
      unfold zscore_check
      rw [if_neg hge, hfa]
      dsimp only
      split
      · refine ⟨_, rfl, rfl, rfl, fun q0 hv => ?_⟩
        unfold vNeq
        rw [hv]
        exact ⟨fun hb => @of_decide_eq_true _ (Classical.propDecidable _) hb,
               fun hp => @decide_eq_true _ (Classical.propDecidable _) hp⟩
      · next hb => exact absurd (decide_eq_true hstd) hb
    · intro hstd q0 hv
      unfold zscore_check
      rw [if_neg hge, hfa]
      dsimp only
      split
      · next hb => exact absurd (of_decide_eq_true hb) hstd
      · rw [hv]
        dsimp only
        refine ⟨_, rfl, ?_, ?_⟩
        · unfold ZSCORE_THRESHOLD
          exact ⟨fun hb => @of_decide_eq_true _ (Classical.propDecidable _) hb,
                 fun hp => @decide_eq_true _ (Classical.propDecidable _) hp⟩
        · rw [show (ZSCORE_THRESHOLD * 2 : ℝ) = 5 from by
            norm_num [ZSCORE_THRESHOLD]]

theorem listMean_replicate (n : ℕ) (c : ℝ) (hn : n ≠ 0) :
    listMean (List.replicate n c) = c := by
  unfold listMean
  rw [List.sum_replicate, List.length_replicate, nsmul_eq_mul]
  field_simp

theorem listStd_replicate (n : ℕ) (c : ℝ) (hn : n ≠ 0) :
    listStd (List.replicate n c) = 0 := by
  have hvar : listVar (List.replicate n c) = 0 := by
    unfold listVar
    rw [listMean_replicate n c hn, List.map_replicate]
    simp
  unfold listStd
  rw [hvar, Real.sqrt_zero]

theorem zscore_check_cases_witness :
    10 ≤ hist10.length ∧
    ∃ zr, zscore_check hist10 (some (Value.num 7)) = .ok zr ∧
      zr.reason = .zero_variance ∧ zr.is_anomaly = true ∧ zr.confidence = 1 := by
  have hstd : listStd ((List.replicate 10 (5 : ℚ)).map (fun (q : ℚ) => (q : ℝ))) = 0 := by
    rw [List.map_replicate]
    exact listStd_replicate 10 _ (by norm_num)
  have hmean : listMean ((List.replicate 10 (5 : ℚ)).map (fun (q : ℚ) => (q : ℝ))) = 5 := by
    rw [List.map_replicate, listMean_replicate 10 _ (by norm_num)]
    norm_num
  have h := (zscore_check_cases hist10 (some (Value.num 7))).2
    (List.replicate 10 5) (by decide) rfl
  obtain ⟨zr, he, hr, hc, hiff⟩ := h.1 hstd
  have hanom : zr.is_anomaly = true := by
    refine (hiff 7 rfl).mpr ?_
    rw [hmean]
    norm_num
  refine ⟨by decide, zr, he, hr, hanom, ?_⟩
  rw [hc, hanom]
  rfl

/-- Claim C7: with fewer than 50 stored readings for the device, the
adaptive detector returns (false, 0), leaves the cached model untouched
and neither trains nor consults any model. -/
theorem isolation_forest_warmup (M : Type) (B : MLBackend M) (cached : Option M)
    (hist : List (Option Value)) (v : Option Value) (h : hist.length < 50) :
    isolation_forest_check B cached hist v = .ok ((false, 0), cached, []) := by
  have hlt : (hist.take 200).length < MIN_SAMPLES_FOR_ML := by
    rw [List.length_take]
    unfold MIN_SAMPLES_FOR_ML
    omega
  unfold isolation_forest_check
  rw [if_pos hlt]

theorem isolation_forest_warmup_witness :
    hist3.length < 50 ∧
    isolation_forest_check B0 none hist3 (some (Value.num 9)) =
      .ok ((false, 0), none, []) :=
  ⟨by decide, isolation_forest_warmup ℕ B0 none hist3 (some (Value.num 9)) (by decide)⟩

theorem if_check_retrains (M : Type) (B : MLBackend M)
    (cached : Option M) (hist : List (Option Value)) (v : Option Value)
    (qs : List ℚ) (q : ℚ)
    (hlen : MIN_SAMPLES_FOR_ML ≤ (hist.take 200).length)
    (hqs : floatArr (hist.take 200) = .ok qs)
    (hv : pyFloat v = some q)
    (hc : cached = none ∨ (hist.take 200).length % 50 = 0) :
    isolation_forest_check B cached hist v =
      .ok (ifRun B (B.fit qs ISOLATION_CONTAMINATION 42 100) q,
           some (B.fit qs ISOLATION_CONTAMINATION 42 100),
           [.fitted qs ISOLATION_CONTAMINATION 42 100, .consulted]) := by
  have hge : ¬ (hist.take 200).length < MIN_SAMPLES_FOR_ML := not_lt.mpr hlen
  unfold isolation_forest_check
  rw [if_neg hge, hqs]
  dsimp only
  rw [hv]
  dsimp only
  rcases hc with hc | hc
  · rw [hc]
  · rcases cached with _ | m
    · rfl
    · rw [decide_eq_true hc]

theorem if_check_reuses (M : Type) (B : MLBackend M) (m : M)
    (hist : List (Option Value)) (v : Option Value)
    (qs : List ℚ) (q : ℚ)
    (hlen : MIN_SAMPLES_FOR_ML ≤ (hist.take 200).length)
    (hqs : floatArr (hist.take 200) = .ok qs)
    (hv : pyFloat v = some q)
    (hmod : (hist.take 200).length % 50 ≠ 0) :
    isolation_forest_check B (some m) hist v =
      .ok (ifRun B m q, some m, [.consulted]) := by
  have hge : ¬ (hist.take 200).length < MIN_SAMPLES_FOR_ML := not_lt.mpr hlen
  unfold isolation_forest_check
  rw [if_neg hge, hqs]
  dsimp only
  rw [hv]
  dsimp only
  rw [decide_eq_false hmod]

/-- Claim C8 (amended): once active, the adaptive detector trains,
replacing the cached model wholesale, exactly when no model is cached or
when the number of fetched recent readings (the history capped at 200)
is divisible by 50 — so with more than 200 stored readings it retrains
on every call — training on the most recent at most 200 values with
contamination 0.1, random_state 42 and 100 estimators; on all other
calls it consults the cached model unchanged. -/
theorem isolation_forest_retrain_policy (M : Type) (B : MLBackend M)
    (cached : Option M) (hist : List (Option Value)) (v : Option Value)
    (qs : List ℚ) (q : ℚ)
    (hlen : MIN_SAMPLES_FOR_ML ≤ (hist.take 200).length)
    (hqs : floatArr (hist.take 200) = .ok qs)
    (hv : pyFloat v = some q) :
    ((cached = none ∨ (hist.take 200).length % 50 = 0) →
      isolation_forest_check B cached hist v =
        .ok (ifRun B (B.fit qs ISOLATION_CONTAMINATION 42 100) q,
             some (B.fit qs ISOLATION_CONTAMINATION 42 100),
             [.fitted qs ISOLATION_CONTAMINATION 42 100, .consulted])) ∧
    (∀ m, cached = some m → (hist.take 200).length % 50 ≠ 0 →
      isolation_forest_check B cached hist v =
        .ok (ifRun B m q, some m, [.consulted])) := by
  constructor
  · exact fun hc => if_check_retrains M B cached hist v qs q hlen hqs hv hc
  · intro m hm hmod
    rw [hm]
    exact if_check_reuses M B m hist v qs q hlen hqs hv hmod

theorem isolation_forest_retrain_policy_witness :
    MIN_SAMPLES_FOR_ML ≤ (hist60.take 200).length ∧
    (60 : ℕ) % 50 ≠ 0 ∧
    isolation_forest_check B0 (some 7) hist60 (some (Value.num 2)) =
      .ok (ifRun B0 7 2, some 7, [.consulted]) := by
  refine ⟨by decide, by decide, ?_⟩
  exact (isolation_forest_retrain_policy ℕ B0 (some 7) hist60 (some (Value.num 2))
    (List.replicate 60 2) 2 (by decide) rfl rfl).2 7 rfl (by decide)

set_option maxRecDepth 40000 in
/-- Claim C8 counterexample: with 201 stored readings (201 mod 50 is not
0) and a model already cached, the detector does not reuse the cached
model: it retrains on the 200 fetched values and replaces the cache. -/
theorem isolation_forest_stale_cache_counterexample :
    hist201.length % 50 ≠ 0 ∧
    isolation_forest_check B0 (some 0) hist201 (some (Value.num 3)) =
      .ok ((false, 0), some 1,
           [.fitted (List.replicate 200 0) ISOLATION_CONTAMINATION 42 100,
            .consulted]) ∧
    (some 1 : Option ℕ) ≠ some 0 := by
  refine ⟨by decide, ?_, by decide⟩
  have h := if_check_retrains ℕ B0 (some 0) hist201 (some (Value.num 3))
    (List.replicate 200 0) 3 (by decide) (by rfl) rfl (Or.inr (by decide))
  rw [h]
  norm_num [ifRun, B0, ifConf, pymax, pymin, pyabs]

theorem auth_and_process_frozen (M : Type) (B : MLBackend M)
    (verify : String → Option JsonObj) (s : GWState M) (req : Request) :
    (auth_and_process B verify s req).2.1.request_tracker = s.request_tracker ∧
    (auth_and_process B verify s req).2.1.blocked_devices = s.blocked_devices := by
  simp only [auth_and_process]
  repeat' split
  all_goals exact ⟨rfl, rfl⟩

theorem auth_and_process_code_ne (M : Type) (B : MLBackend M)
    (verify : String → Option JsonObj) (s : GWState M) (req : Request) :
    (auth_and_process B verify s req).1.code ≠ 429 := by
  simp only [auth_and_process]
  repeat' split
  all_goals simp

theorem rate_stage_inl_shape (M : Type) (s : GWState M) (inc : Option JsonObj)
    (now : ℚ) (out : Resp × GWState M × List Ev)
    (h : rate_stage s inc now = .inl out) :
    (out.2.1 = s ∧ out.2.2 = []) ∨
    ∃ dv, out.2.1.blocked_devices = dv :: s.blocked_devices ∧
      out.2.2 = [Ev.alertEv (some dv) kRateLimit kHigh] := by
  simp only [rate_stage] at h
  split at h
  · exact absurd h (by simp)
  · split at h
    · exact absurd h (by simp)
    · split at h
      · cases h
        exact Or.inl ⟨rfl, rfl⟩
      · split at h
        · cases h
          exact Or.inr ⟨_, rfl, rfl⟩
        · exact absurd h (by simp)

theorem rate_stage_inr_state (M : Type) (s : GWState M) (inc : Option JsonObj)
    (now : ℚ) (s2 : GWState M)
    (h : rate_stage s inc now = .inr s2) :
    s2.blocked_devices = s.blocked_devices ∧ s2.db = s.db ∧
      s2.models = s.models := by
  simp only [rate_stage] at h
  split at h
  · cases h
    exact ⟨rfl, rfl, rfl⟩
  · split at h
    · cases h
      exact ⟨rfl, rfl, rfl⟩
    · split at h
      · exact absurd h (by simp)
      · split at h
        · exact absurd h (by simp)
        · cases h
          exact ⟨rfl, rfl, rfl⟩

theorem auth_and_process_trace_ok (M : Type) (B : MLBackend M)
    (verify : String → Option JsonObj) (s : GWState M) (req : Request) :
    guardedAfterAuthPersist false false (auth_and_process B verify s req).2.2 = true := by
  simp only [auth_and_process]
  repeat' split
  all_goals simp [guardedAfterAuthPersist, evGuarded, evIsRateAlert, evIsAuthOk,
    evIsPersist, kQuarantine, kRateLimit, kAnomalyTy, kQuarantined, kAllowed,
    kDenied, kHigh, kMedium, kLow]

/-- Claim C4 (amended): in every execution of the ingest pipeline, a
trust-state mutation occurs only after both credential verification and
persistence of the raw reading have succeeded, and so does every alert
emission except the rate-limiter flooding alert, which is emitted before
authentication on the rate-limit-exceeded path. -/
theorem effects_ordering (M : Type) (B : MLBackend M)
    (verify : String → Option JsonObj) (s : GWState M) (req : Request)
    (now : ℚ) :
    guardedAfterAuthPersist false false (ingest B verify s req now).2.2 = true := by
  unfold ingest
  rcases hrs : rate_stage s req.body now with out | s2
  · dsimp only
    rcases rate_stage_inl_shape M s req.body now out hrs with ⟨_, h⟩ | ⟨dv, _, h⟩
    · rw [h]
      rfl
    · rw [h]
      simp [guardedAfterAuthPersist, evGuarded, evIsRateAlert, kRateLimit]
  · dsimp only
    exact auth_and_process_trace_ok M B verify s2 req

theorem isEmpty_false_of_ne_nil {j : JsonObj} (hne : j ≠ []) :
    j.isEmpty = false := by
  cases j
  · exact absurd rfl hne
  · rfl

/-- Claim C3: a device whose current trust score is below 40 has its 6th
in-window ingest request rejected with the rate-limit-exceeded reason and
is added to the blocked set; a blocked device is rejected immediately
with the already-blocked reason with no state change; and no request by
any device ever removes a device from the blocked set. -/
theorem rate_limiter_block_behavior (M : Type) :
    (∀ (B : MLBackend M) (verify : String → Option JsonObj) (s : GWState M)
       (req : Request) (now : ℚ) (j : JsonObj),
       req.body = some j → j ≠ [] →
       (jget j kDeviceId).getD (Value.str kUnknown) ∈ s.blocked_devices →
       ingest B verify s req now = (⟨429, kAlreadyBlocked⟩, s, [])) ∧
    (∀ (B : MLBackend M) (verify : String → Option JsonObj) (s : GWState M)
       (req : Request) (now : ℚ) (j : JsonObj) (did : Value),
       req.body = some j → j ≠ [] →
       did = (jget j kDeviceId).getD (Value.str kUnknown) →
       did ∉ s.blocked_devices →
       get_trust_score s.db (some did) < 40 →
       ((s.request_tracker did).filter
         (fun t => now - t < RATE_LIMIT_WINDOW)).length = 5 →
       (ingest B verify s req now).1 = ⟨429, kRateLimitExceeded⟩ ∧
       did ∈ (ingest B verify s req now).2.1.blocked_devices) ∧
    (∀ (B : MLBackend M) (verify : String → Option JsonObj) (s : GWState M)
       (req : Request) (now : ℚ) (d : Value),
       d ∈ s.blocked_devices →
       d ∈ (ingest B verify s req now).2.1.blocked_devices) := by
  refine ⟨?_, ?_, ?_⟩
  · intro B verify s req now j hb hne hmem
    have hje := isEmpty_false_of_ne_nil hne
    have hrs : rate_stage s req.body now =
        .inl (⟨429, kAlreadyBlocked⟩, s, []) := by
      rw [hb]
      simp only [rate_stage, hje, Bool.false_eq_true, if_false]
      rw [if_pos hmem]
    unfold ingest
    rw [hrs]
  · intro B verify s req now j did hb hne hdid hnb hscore hcount
    subst hdid
    have hje := isEmpty_false_of_ne_nil hne
    have hout : ∃ st : GWState M, rate_stage s req.body now =
        .inl (⟨429, kRateLimitExceeded⟩, st,
          [Ev.alertEv (some ((jget j kDeviceId).getD (Value.str kUnknown)))
            kRateLimit kHigh]) ∧
        (jget j kDeviceId).getD (Value.str kUnknown) ∈ st.blocked_devices := by
      rw [hb]
      simp only [rate_stage, hje, Bool.false_eq_true, if_false]
      rw [if_neg hnb]
      have hlen : RATE_LIMIT_MAX <
          (((s.request_tracker ((jget j kDeviceId).getD (Value.str kUnknown))).filter
            (fun t => now - t < RATE_LIMIT_WINDOW)) ++ [now]).length := by
        rw [List.length_append, hcount]
        simp [RATE_LIMIT_MAX]
      rw [if_pos ⟨hscore, hlen⟩]
      exact ⟨_, rfl, List.mem_cons_self _ _⟩
    obtain ⟨st, hrs, hmem⟩ := hout
    unfold ingest
    rw [hrs]
    exact ⟨rfl, hmem⟩
  · intro B verify s req now d hd
    unfold ingest
    rcases hrs : rate_stage s req.body now with out | s2
    · dsimp only
      rcases rate_stage_inl_shape M s req.body now out hrs with ⟨hst, _⟩ | ⟨dv, hbl, _⟩
      · rw [hst]
        exact hd
      · rw [hbl]
        exact List.mem_cons_of_mem _ hd
    · dsimp only
      rw [(auth_and_process_frozen M B verify s2 req).2,
          (rate_stage_inr_state M s req.body now s2 hrs).1]
      exact hd

theorem sRL_score_lt : get_trust_score sRL.db (some (Value.str kD1)) < 40 := by
  norm_num [get_trust_score, sRL, dbRL, sqlEq, List.find?]

theorem sRL_filter_len :
    ((sRL.request_tracker (Value.str kD1)).filter
      (fun t => (1 : ℚ) - t < RATE_LIMIT_WINDOW)).length = 5 := by
  norm_num [sRL, List.filter, RATE_LIMIT_WINDOW]

theorem rate_limiter_block_behavior_witness :
    ingest B0 verify0 sBlocked req0 0 = (⟨429, kAlreadyBlocked⟩, sBlocked, []) ∧
    (ingest B0 verify0 sRL reqC4 1).1 = ⟨429, kRateLimitExceeded⟩ ∧
    Value.str kD1 ∈ (ingest B0 verify0 sRL reqC4 1).2.1.blocked_devices := by
  have h := rate_limiter_block_behavior ℕ
  refine ⟨?_, ?_⟩
  · exact h.1 B0 verify0 sBlocked req0 0 [(kDeviceId, Value.str kD1)]
      rfl (by decide) (by decide)
  · exact h.2.1 B0 verify0 sRL reqC4 1 [(kDeviceId, Value.str kD1)]
      (Value.str kD1) rfl (by decide) rfl (by simp [sRL]) sRL_score_lt sRL_filter_len

/-- Claim C4 counterexample: a request from a low-trust flooding device
carrying no credentials at all is rejected by the rate limiter, and the
execution emits a high-severity rate-limit alert as its only effect:
the alert is emitted although credential verification never succeeded
and no reading was persisted. -/
theorem alert_before_auth_counterexample :
    (∃ st : GWState ℕ, ingest B0 verify0 sRL reqC4 1 =
      (⟨429, kRateLimitExceeded⟩, st,
       [Ev.alertEv (some (Value.str kD1)) kRateLimit kHigh])) ∧
    Ev.authOk ∉ (ingest B0 verify0 sRL reqC4 1).2.2 ∧
    (∀ d v, Ev.persistReading d v ∉ (ingest B0 verify0 sRL reqC4 1).2.2) := by
  have hdid : (jget [(kDeviceId, Value.str kD1)] kDeviceId).getD
      (Value.str kUnknown) = Value.str kD1 := rfl
  have hout : ∃ st : GWState ℕ, rate_stage sRL reqC4.body 1 =
      .inl (⟨429, kRateLimitExceeded⟩, st,
        [Ev.alertEv (some (Value.str kD1)) kRateLimit kHigh]) := by
    show ∃ st : GWState ℕ,
      rate_stage sRL (some [(kDeviceId, Value.str kD1)]) 1 = _
    simp only [rate_stage, List.isEmpty, Bool.false_eq_true, if_false, hdid]
    rw [if_neg (by simp [sRL])]
    have hlen : RATE_LIMIT_MAX <
        (((sRL.request_tracker (Value.str kD1)).filter
          (fun t => (1 : ℚ) - t < RATE_LIMIT_WINDOW)) ++ [1]).length := by
      rw [List.length_append, sRL_filter_len]
      simp [RATE_LIMIT_MAX]
    rw [if_pos ⟨sRL_score_lt, hlen⟩]
    exact ⟨_, rfl⟩
  obtain ⟨st, hrs⟩ := hout
  have hing : ingest B0 verify0 sRL reqC4 1 =
      (⟨429, kRateLimitExceeded⟩, st,
       [Ev.alertEv (some (Value.str kD1)) kRateLimit kHigh]) := by
    unfold ingest
    rw [hrs]
  rw [hing]
  exact ⟨⟨st, rfl⟩, by simp, fun d v => by simp⟩

/-- Claim C10: when the request body is absent or unparseable, the whole
rate-limiting stage is skipped with no pruning, no timestamp append and
no blocked-set check — processing continues directly with credential
validation on the unchanged state — and the request is never rejected
with the 429 rate-limit/blocked status, even for a blocked device. -/
theorem no_body_skips_rate_limit (M : Type) (B : MLBackend M)
    (verify : String → Option JsonObj) (s : GWState M) (req : Request)
    (now : ℚ) (h : req.body = none) :
    ingest B verify s req now = auth_and_process B verify s req ∧
    (ingest B verify s req now).2.1.request_tracker = s.request_tracker ∧
    (ingest B verify s req now).2.1.blocked_devices = s.blocked_devices ∧
    (ingest B verify s req now).1.code ≠ 429 := by
  have hrs : rate_stage s req.body now = .inr s := by
    rw [h]
    rfl
  have he : ingest B verify s req now = auth_and_process B verify s req := by
    unfold ingest
    rw [hrs]
  refine ⟨he, ?_, ?_, ?_⟩
  · rw [he]
    exact (auth_and_process_frozen M B verify s req).1
  · rw [he]
    exact (auth_and_process_frozen M B verify s req).2
  · rw [he]
    exact auth_and_process_code_ne M B verify s req

theorem no_body_skips_rate_limit_witness :
    reqNoBody.body = none ∧
    Value.str kD1 ∈ sBlocked.blocked_devices ∧
    ingest B0 verify0 sBlocked reqNoBody 0 =
      auth_and_process B0 verify0 sBlocked reqNoBody ∧
    (ingest B0 verify0 sBlocked reqNoBody 0).1.code ≠ 429 := by
  have h := no_body_skips_rate_limit ℕ B0 verify0 sBlocked reqNoBody 0 rfl
  exact ⟨rfl, by simp [sBlocked], h.1, h.2.2.2⟩

/-- Claim C9 (amended): ingest performs no validation of reading fields.
Once the credential check and the token/device-id match succeed, the raw
reading is persisted exactly as supplied — a missing value is stored as
null — before any detector or trust logic runs, on every such request
regardless of the shape of its fields. -/
theorem missing_value_processed (M : Type) (B : MLBackend M)
    (verify : String → Option JsonObj) (s : GWState M) (req : Request)
    (j p : JsonObj) (ia : ℤ)
    (hb : req.body = some j)
    (hsw : pyStartsWith req.authHeader kBearer = true)
    (hver : verify ((pySplitSpace req.authHeader).getD 1 kEmpty) = some p)
    (hpd : jget p kDeviceId = jget j kDeviceId)
    (hia : toIntPy ((jget j kIsAnomalyKey).getD (Value.bool false)) = some ia) :
    Ev.persistReading (jget j kDeviceId) (jget j kValue) ∈
      (auth_and_process B verify s req).2.2 ∧
    (⟨jget j kDeviceId, jget j kValue,
      (jget j kUnit).getD (Value.str kEmpty), ia⟩ : Reading) ∈
      (auth_and_process B verify s req).2.1.db.device_data := by
  have hbear : (!pyStartsWith req.authHeader kBearer) = false := by
    rw [hsw]
    rfl
  simp only [auth_and_process, hbear, Bool.false_eq_true, if_false, hver, hb,
    hpd, bne_self_eq_false, hia]
  repeat' split
  all_goals constructor
  all_goals simp [log_access, create_alert, compute_and_store_trust]

theorem missing_value_processed_witness :
    jget [(kDeviceId, Value.str kD1)] kValue = none ∧
    Ev.persistReading (jget [(kDeviceId, Value.str kD1)] kDeviceId)
      (jget [(kDeviceId, Value.str kD1)] kValue) ∈
      (auth_and_process B0 verify0 s0 req0).2.2 := by
  have h := missing_value_processed ℕ B0 verify0 s0 req0
    [(kDeviceId, Value.str kD1)] [(kDeviceId, Value.str kD1)] 0
    rfl rfl rfl rfl rfl
  exact ⟨rfl, h.1⟩

/-- Claim C9 counterexample: a fully authenticated request from device d1
whose body has no value field at all is not rejected: it is answered 200
with full access, the raw reading is persisted with a null value, the
detectors run on that stored reading, and the trust score is mutated
(stored anew at 100 after the plus-2 clamp). -/
theorem missing_value_not_rejected_counterexample :
    jget [(kDeviceId, Value.str kD1)] kValue = none ∧
    (ingest B0 verify0 s0 req0 0).1 = ⟨200, kAllowed⟩ ∧
    Ev.persistReading (some (Value.str kD1)) none ∈
      (ingest B0 verify0 s0 req0 0).2.2 ∧
    Ev.trustStore (some (Value.str kD1)) 100 ∈
      (ingest B0 verify0 s0 req0 0).2.2 := by
  have hrs : rate_stage s0 req0.body 0 = .inr s0p := by
    show rate_stage s0 (some [(kDeviceId, Value.str kD1)]) 0 = .inr s0p
    simp only [rate_stage, List.isEmpty, Bool.false_eq_true, if_false,
      show (jget [(kDeviceId, Value.str kD1)] kDeviceId).getD
        (Value.str kUnknown) = Value.str kD1 from rfl]
    rw [if_neg (by simp [s0])]
    have hc : ¬ (get_trust_score s0.db (some (Value.str kD1)) < 40 ∧
        RATE_LIMIT_MAX < (((s0.request_tracker (Value.str kD1)).filter
          (fun t => (0 : ℚ) - t < RATE_LIMIT_WINDOW)) ++ [0]).length) := by
      intro hcon
      have h1 := hcon.1
      rw [show get_trust_score s0.db (some (Value.str kD1)) = 100 from rfl] at h1
      norm_num at h1
    rw [if_neg hc]
    rfl
  have hing : ingest B0 verify0 s0 req0 0 = auth_and_process B0 verify0 s0p req0 := by
    unfold ingest
    rw [hrs]
  have hcs : compute_and_store_trust
      { s0p.db with device_data :=
          ⟨some (Value.str kD1), none, Value.str kEmpty, 0⟩ :: s0p.db.device_data }
      (some (Value.str kD1)) false none (Value.str kUnknown) =
      (100, kFull,
       { device_data := [⟨some (Value.str kD1), none, Value.str kEmpty, 0⟩],
         trust_scores := [⟨some (Value.str kD1), 100, kFull⟩],
         alerts := [], access_logs := [] }) := by
    unfold compute_and_store_trust
    rw [show get_trust_score
        { s0p.db with device_data :=
            ⟨some (Value.str kD1), none, Value.str kEmpty, 0⟩ :: s0p.db.device_data }
        (some (Value.str kD1)) = 100 from rfl]
    norm_num [pymax, pymin, accessLevelOf, TRUST_FULL_ACCESS]
    exact ⟨rfl, rfl, rfl, rfl⟩
  obtain ⟨stF, hap⟩ : ∃ stF, auth_and_process B0 verify0 s0p req0 =
      (⟨200, kAllowed⟩, stF,
       [Ev.authOk, Ev.persistReading (some (Value.str kD1)) none,
        Ev.trustStore (some (Value.str kD1)) 100,
        Ev.logEv (some (Value.str kD1)) kAllowed]) := by
    simp only [auth_and_process,
      show (!pyStartsWith req0.authHeader kBearer) = false from rfl,
      Bool.false_eq_true, if_false,
      show verify0 ((pySplitSpace req0.authHeader).getD 1 kEmpty) =
        some [(kDeviceId, Value.str kD1)] from rfl,
      show req0.body = some [(kDeviceId, Value.str kD1)] from rfl,
      show jget [(kDeviceId, Value.str kD1)] kDeviceId =
        some (Value.str kD1) from rfl,
      show jget [(kDeviceId, Value.str kD1)] kValue = none from rfl,
      show jget [(kDeviceId, Value.str kD1)] kIsAnomalyKey = none from rfl,
      show jget [(kDeviceId, Value.str kD1)] kUnit = none from rfl,
      show jget [(kDeviceId, Value.str kD1)] kDeviceType = none from rfl,
      Option.getD_none, Option.getD_some, bne_self_eq_false,
      show toIntPy (Value.bool false) = some 0 from rfl,
      show detect_anomaly B0 s0p.models
          (⟨some (Value.str kD1), none, Value.str kEmpty, 0⟩ ::
            s0p.db.device_data)
          (some (Value.str kD1)) none =
        Except.ok (combineVerdict false 0 false ((0 : ℚ) : ℝ)
          Reason.insufficient_history, ([] : List (Option Value × ℕ))) from rfl,
      show truthyV (Value.bool false) = false from rfl,
      show (combineVerdict false 0 false ((0 : ℚ) : ℝ)
        Reason.insufficient_history).is_anomaly = false from rfl,
      Bool.or_self, Bool.false_eq_true, if_false, hcs,
      show (kFull == kQuarantine) = false from rfl,
      show (kFull == kReadOnly) = false from rfl]
    exact ⟨_, rfl⟩
  rw [hing, hap]
  refine ⟨rfl, rfl, by simp, by simp⟩
